import Mathlib

/-!
# Verification of the MIGS payment backend

Shallow embedding of the payment-transaction core of the repository:

* `src/payment/backend/src/payment/utils/hash.util.ts` — the secure-hash
  codec (`MigsHashUtil.generateSecureHash` / `verifySecureHash`);
* `src/payment/backend/src/payment/payment.service.ts` — the transaction
  state machine (`processPaymentResponse`, `cancelPayment`, `refundPayment`,
  `makeApiCall`, `parseResponse`);
* `src/payment/backend/src/payment/processor/payment-status-sync.processor.ts`
  — the reconciliation worker (`handlePaymentStatusSync` per-transaction
  body, `mapGatewayStatusToLocal`);
* `src/payment-meshreq/src/webhook/webhook.controller.ts` and the Mashreq
  service (`handleMashreqWebhook`, `verifyWebhookSignature`).

JavaScript `Record<string, string | null>` maps are embedded as association
lists `List (String × Option String)` (`none` models `null`/`undefined`
values); parsed gateway responses, whose values may be numbers after
`parseResponse`'s numeric coercion, are `List (String × JsValue)`.
Cryptographic digests (`crypto.createHash`, `crypto.createHmac`) are
external library calls; they enter the embedding as explicit function
parameters, so every theorem quantifies over the digest implementation and
witnesses instantiate it with concrete functions.
-/

namespace Migs

/-- A JS `Record<string, string | null>`: association list, `none` = `null`. -/
abbrev Params := List (String × Option String)

/-- The two members of `enum VpcSecureHashType` in `hash.util.ts`. -/
inductive VpcSecureHashType where
  | MD5
  | SHA256
deriving DecidableEq, Repr

/-- The external digest primitives used by `MigsHashUtil`:
`md5Hex s` models `crypto.createHash('md5').update(s,'utf8').digest('hex')`,
`hmacSha256Hex key s` models
`crypto.createHmac('sha256', key).update(s,'utf8').digest('hex')` where
`key` is the byte list produced by `Buffer.from(secret, 'hex')`. -/
structure Digests where
  md5Hex : String → String
  hmacSha256Hex : List Nat → String → String

/-- The whitespace class of JS `String.prototype.trim()` (restricted to the
ASCII whitespace characters; no claim involves the exotic Unicode ones). -/
def isJsWhitespace (c : Char) : Bool :=
  c = ' ' ∨ c = '\t' ∨ c = '\n' ∨ c = '\r'

/-- JS `value.trim()`: strip leading and trailing whitespace. -/
def jsTrim (s : String) : String :=
  String.mk (((s.data.dropWhile isJsWhitespace).reverse.dropWhile isJsWhitespace).reverse)

/-- JS `String.prototype.toUpperCase()` on the hex output of `digest`. -/
def jsToUpperCase (s : String) : String :=
  String.mk (s.data.map Char.toUpper)

/-- The filter in `generateSecureHash` (hash.util.ts lines 21–26): keep an
entry iff its key is neither `vpc_SecureHash` nor `vpc_SecureHashType` and
its value is non-null with a nonempty trim. -/
def keepEntry (p : String × Option String) : Bool :=
  if p.1 = "vpc_SecureHash" ∨ p.1 = "vpc_SecureHashType" then false
  else
    match p.2 with
    | none => false
    | some v => decide (0 < (jsTrim v).length)

/-- `filteredParams` of `generateSecureHash`: surviving entries with their
values trimmed (`filteredParams[key] = value.trim()`). -/
def filteredParams (parameters : Params) : List (String × String) :=
  (parameters.filter keepEntry).map (fun p => (p.1, jsTrim (p.2.getD "")))

/-- Key order used by `Object.keys(filteredParams).sort()`: the default JS
array sort compares key strings lexicographically by code unit, embedded as
the lexicographic order on the character lists. -/
def keyLE (a b : String × String) : Prop := a.1.data ≤ b.1.data

instance : DecidableRel keyLE := fun a b => inferInstanceAs (Decidable (a.1.data ≤ b.1.data))

instance : IsTotal (String × String) keyLE := ⟨fun a b => le_total a.1.data b.1.data⟩

instance : IsTrans (String × String) keyLE := ⟨fun _ _ _ h1 h2 => le_trans h1 h2⟩

/-- The filtered entries in sorted key order (`sortedKeys` together with the
values they index in `filteredParams`). -/
def sortedEntries (parameters : Params) : List (String × String) :=
  List.insertionSort keyLE (filteredParams parameters)

/-- Hex value of one character, as Node's hex decoder accepts it. -/
def hexVal (c : Char) : Option Nat :=
  if '0' ≤ c ∧ c ≤ '9' then some (c.toNat - 48)
  else if 'a' ≤ c ∧ c ≤ 'f' then some (c.toNat - 87)
  else if 'A' ≤ c ∧ c ≤ 'F' then some (c.toNat - 55)
  else none

/-- `Buffer.from(s, 'hex')`: decode pairs of hex digits into bytes, stopping
at the first invalid pair (a trailing odd digit is dropped). -/
def hexDecodeAux : List Char → List Nat
  | c1 :: c2 :: rest =>
    match hexVal c1, hexVal c2 with
    | some h, some l => (16 * h + l) :: hexDecodeAux rest
    | _, _ => []
  | _ => []

/-- `Buffer.from(secret, 'hex')` as a byte list. -/
def hexDecode (s : String) : List Nat := hexDecodeAux s.data

/-- `MigsHashUtil.generateSecureHash` (hash.util.ts lines 12–57).
Variant `MD5`: digest of `secret ++ sorted values joined with no separator`;
variant `SHA256`: keyed digest of the `key=value` query string joined by
`&`, keyed by the hex-decoded secret. Output is uppercased. -/
def generateSecureHash (d : Digests) (parameters : Params)
    (vpcSecureSecret : String) (hashType : VpcSecureHashType) : String :=
  match hashType with
  | .MD5 =>
    let valueString := String.join ((sortedEntries parameters).map (·.2))
    jsToUpperCase (d.md5Hex (vpcSecureSecret ++ valueString))
  | .SHA256 =>
    let queryString :=
      String.intercalate "&"
        ((sortedEntries parameters).map (fun p => p.1 ++ "=" ++ p.2))
    jsToUpperCase (d.hmacSha256Hex (hexDecode vpcSecureSecret) queryString)

/-- `MigsHashUtil.verifySecureHash` (hash.util.ts lines 62–74): read
`parameters.vpc_SecureHash`; the JS falsy test `!providedHash` rejects an
absent, `null` or empty-string hash; otherwise compare the recomputed hash
for exact string equality. -/
def verifySecureHash (d : Digests) (parameters : Params)
    (vpcSecureSecret : String) (hashType : VpcSecureHashType) : Bool :=
  match parameters.lookup "vpc_SecureHash" with
  | none => false
  | some none => false
  | some (some providedHash) =>
    if providedHash = "" then false
    else decide (generateSecureHash d parameters vpcSecureSecret hashType = providedHash)

/-- JS property assignment `parameters[k] = v` on an object: overwrite the
existing key's value, else append the new key. -/
def setParam (parameters : Params) (k : String) (v : Option String) : Params :=
  if parameters.any (fun p => p.1 = k) then
    parameters.map (fun p => if p.1 = k then (k, v) else p)
  else parameters ++ [(k, v)]

/-! ## Data model: `PaymentTransaction` and parsed gateway values -/

/-- `enum TransactionStatus` of `payment-transaction.model.ts`. -/
inductive TransactionStatus where
  | pending
  | success
  | failed
  | cancelled
  | refunded
  | partially_refunded
deriving DecidableEq, Repr

/-- A JS value as `parseResponse` produces it: a string, or a number after
the numeric coercion of numeric-looking strings. Numbers are embedded as
rationals (`DECIMAL(10,2)` amounts and parsed integers/floats are exact in
every claim considered). -/
inductive JsValue where
  | str (s : String)
  | num (q : ℚ)
deriving DecidableEq, Repr

/-- The fields of `PaymentTransaction` the state machine reads or writes.
`createdAt`/`processedAt` are epoch milliseconds. Gateway-assigned fields
are `Option JsValue` (`none` = SQL `NULL`); the callback path writes string
values, the reconciliation worker writes parsed (possibly numeric) values. -/
structure Transaction where
  merchantTxnRef : String
  amount : ℚ
  refundedAmount : ℚ
  status : TransactionStatus
  transactionId : Option JsValue
  responseCode : Option JsValue
  responseMessage : Option JsValue
  authCode : Option JsValue
  receiptNo : Option JsValue
  batchNo : Option JsValue
  gatewayResponse : Option Params
  processedAt : Option ℕ
  createdAt : ℕ
deriving DecidableEq, Repr

/-- The error taxonomy of the service: the NestJS exception classes thrown
by `payment.service.ts` (plus `jsError` for a raw JS `Error`/`TypeError`
that escapes without being wrapped in a NestJS exception). -/
inductive ApiError where
  | badRequest (msg : String)
  | notFound (msg : String)
  | serviceUnavailable (msg : String)
  | gatewayTimeout (msg : String)
  | jsError (msg : String)
deriving DecidableEq, Repr

instance {ε α : Type} [DecidableEq ε] [DecidableEq α] : DecidableEq (Except ε α) :=
  fun x y =>
    match x, y with
    | .ok a, .ok b =>
      if h : a = b then isTrue (by rw [h]) else isFalse (by simp [h])
    | .error a, .error b =>
      if h : a = b then isTrue (by rw [h]) else isFalse (by simp [h])
    | .ok _, .error _ => isFalse (by simp)
    | .error _, .ok _ => isFalse (by simp)

/-! ## Gateway client: `parseResponse` and `makeApiCall` -/

/-- Fold a digit list into the number `parseInt` returns. -/
def digitsToNat (l : List Char) : ℕ :=
  l.foldl (fun n c => 10 * n + (c.toNat - 48)) 0

/-- The numeric coercion of `parseResponse` (payment.service.ts lines
655–664): `/^\d+$/` → `parseInt`, `/^\d+\.\d+$/` → `parseFloat`, all other
values stay strings. -/
def coerceValue (v : String) : JsValue :=
  if v.data ≠ [] ∧ v.data.all Char.isDigit then .num (digitsToNat v.data)
  else
    match v.data.splitOnP (· = '.') with
    | [a, b] =>
      if a ≠ [] ∧ a.all Char.isDigit ∧ b ≠ [] ∧ b.all Char.isDigit
      then .num ((digitsToNat a : ℚ) + (digitsToNat b : ℚ) / (10 : ℚ) ^ b.length)
      else .str v
    | _ => .str v

/-- One `key=value` pair as `URLSearchParams` splits it: the key is the text
before the first `=`, the value everything after (empty when no `=`).
Percent-decoding is omitted: no claim involves percent-escaped octets. -/
def splitPair (kv : List Char) : String × String :=
  match kv.span (· ≠ '=') with
  | (k, []) => (String.mk k, "")
  | (k, _ :: rest) => (String.mk k, String.mk rest)

/-- `parseResponse` (payment.service.ts lines 650–674): URL-form-decode the
body into a map — split on `&`, drop empty segments as `URLSearchParams`
does, split each pair at its first `=` — coercing numeric-looking values. -/
def parseResponse (responseString : String) : List (String × JsValue) :=
  ((responseString.data.splitOnP (· = '&')).filter (· ≠ [])).map
    (fun kv => let p := splitPair kv; (p.1, coerceValue p.2))

/-- `response.data`: a raw string body or a decoded object. -/
inductive JsBody where
  | str (s : String)
  | obj (fields : List (String × JsValue))
deriving DecidableEq, Repr

/-- What the axios call inside `makeApiCall` produces: a resolved response
(axios resolves exactly when `validateStatus`, i.e. `status < 500`, holds)
whose body is either a string or an already-decoded object, or a rejection
carrying the error `code` (`ECONNABORTED`, `ENOTFOUND`, …; 5xx statuses and
other transport failures surface here too). -/
inductive AxiosOutcome where
  | ok (status : ℕ) (data : JsBody)
  | netError (code : String)
deriving DecidableEq, Repr

/-- `makeApiCall` (payment.service.ts lines 564–641) after the axios
exchange: statuses ≥ 400 raise `ServiceUnavailableException`; a string body
that looks URL-encoded is parsed, any other string is wrapped as
`{rawResponse: …}`; an object body is returned as-is; axios rejections map
to the timeout/unreachable/generic gateway errors. -/
def makeApiCall (outcome : AxiosOutcome) :
    Except ApiError (List (String × JsValue)) :=
  match outcome with
  | .ok status data =>
    if status ≥ 400 then
      .error (.serviceUnavailable "Gateway returned error status")
    else
      match data with
      | .str s =>
        if s.data.contains '=' ∧ (s.data.contains '&' ∨ ¬ s.data.contains ' ') then
          .ok (parseResponse s)
        else .ok [("rawResponse", .str s)]
      | .obj fields => .ok fields
  | .netError code =>
    if code = "ECONNABORTED" then
      .error (.gatewayTimeout "Gateway request timed out")
    else if code = "ENOTFOUND" ∨ code = "ECONNREFUSED" then
      .error (.serviceUnavailable "Gateway service is not reachable")
    else .error (.serviceUnavailable "Gateway communication failed")

/-- JS truthiness of a parsed value (`''` and `0` are falsy). -/
def jsTruthy : JsValue → Bool
  | .str s => s ≠ ""
  | .num q => q ≠ 0

/-- The value of a parsed response read as the `string | null` the hash
utility is typed over: strings pass through; a numeric value would make
`value.trim()` throw a `TypeError`, but inside `processQueryResponse` the
values are never inspected (see `processQueryResponse`), so mapping numbers
to `none` is unobservable. -/
def jsAsNullableString : JsValue → Option String
  | .str s => some s
  | .num _ => none

/-- The `vpc_SecureHashType` of a response as the hash-type argument of
`verifySecureHash`: an absent tag takes the default parameter `SHA256`;
the tag `'MD5'` selects MD5; anything else behaves as a non-MD5 tag (an
unrecognized tag would only make `generateSecureHash` throw, and that call
is never reached — see `processQueryResponse`). -/
def hashTypeOrDefault : Option JsValue → VpcSecureHashType
  | some (.str "MD5") => .MD5
  | _ => .SHA256

/-- `processQueryResponse` (payment.service.ts lines 489–532): when the
response carries a truthy `vpc_SecureHash`, verify the hash over
`dataForHash` — the response with `vpc_SecureHash`/`vpc_SecureHashType`
destructured away — and throw `ServiceUnavailableException` when
verification fails. (Because `vpc_SecureHash` is destructured out of
`dataForHash`, the falsy check inside `verifySecureHash` always fires on
this call, so the branch can only fail; the model keeps the real call.)
The `!response` and string-body guards of the source concern values that
`makeApiCall` cannot produce in this embedding (it always returns a map). -/
def processQueryResponse (d : Digests) (secret : String)
    (response : List (String × JsValue)) :
    Except ApiError (List (String × JsValue)) :=
  let dataForHash :=
    response.filter (fun p => ¬(p.1 = "vpc_SecureHash" ∨ p.1 = "vpc_SecureHashType"))
  match response.lookup "vpc_SecureHash" with
  | some hv =>
    if jsTruthy hv then
      if verifySecureHash d (dataForHash.map (fun p => (p.1, jsAsNullableString p.2)))
          secret (hashTypeOrDefault (response.lookup "vpc_SecureHashType")) then
        .ok response
      else .error (.serviceUnavailable "Response validation failed")
    else .ok response
  | none => .ok response

/-- `queryPaymentByTxnRef` (payment.service.ts lines 388–479): validate the
reference (non-blank after trim, length 5–50), require the transaction to
exist locally (`found`), then issue the gateway query (`makeApiCall` on the
axios outcome `wire`) and validate the response. The signed `vpc_Command =
'queryDR'` request parameters only feed the HTTP exchange, which `wire`
abstracts. -/
def queryPaymentByTxnRef (d : Digests) (secret : String)
    (merchantTxnRef : String) (found : Bool) (wire : AxiosOutcome) :
    Except ApiError (List (String × JsValue)) :=
  if merchantTxnRef = "" then
    .error (.badRequest "Merchant Transaction Reference is required and must be a string")
  else
    let trimmedRef := jsTrim merchantTxnRef
    if trimmedRef.length = 0 then
      .error (.badRequest "Merchant Transaction Reference cannot be empty")
    else if trimmedRef.length < 5 ∨ trimmedRef.length > 50 then
      .error (.badRequest "Merchant Transaction Reference has invalid length")
    else if ¬ found then
      .error (.notFound "Merchant Transaction Reference Id is Invalid")
    else (makeApiCall wire).bind (fun r => processQueryResponse d secret r)

/-! ## Transaction state machine -/

/-- Lines 194–197 of payment.service.ts: the callback's response-code table —
`vpc_TxnResponseCode === '0'` maps to `SUCCESS`, anything else (including an
absent or null code) to `FAILED`. -/
def callbackStatus (code : Option (Option String)) : TransactionStatus :=
  if code = some (some "0") then .success else .failed

/-- A gateway-supplied column in the callback's `updateData`: an absent DTO
field (`undefined`) is skipped by the ORM update and keeps the old value;
`null` clears the column; a string is stored. -/
def updField (old : Option JsValue) (v : Option (Option String)) : Option JsValue :=
  match v with
  | none => old
  | some none => none
  | some (some s) => some (.str s)

/-- `processPaymentResponse` (payment.service.ts lines 169–224): verify the
response hash (reject with `BadRequestException` on failure, before any
mutation), require the transaction referenced by `vpc_MerchTxnRef` to exist
(`found` is the store lookup's result), then unconditionally overwrite the
gateway fields, set `processedAt` and apply the mapped status. -/
def processPaymentResponse (d : Digests) (secret : String)
    (responseData : Params) (found : Option Transaction) (now : ℕ) :
    Except ApiError Transaction :=
  if ¬ verifySecureHash d responseData secret .SHA256 then
    .error (.badRequest "Invalid secure hash - response integrity compromised")
  else
    match found with
    | none => .error (.notFound "Transaction not found")
    | some t =>
      .ok { t with
        transactionId := updField t.transactionId (responseData.lookup "vpc_TransactionNo")
        responseCode := updField t.responseCode (responseData.lookup "vpc_TxnResponseCode")
        responseMessage := updField t.responseMessage (responseData.lookup "vpc_Message")
        authCode := updField t.authCode (responseData.lookup "vpc_AuthorizeId")
        receiptNo := updField t.receiptNo (responseData.lookup "vpc_ReceiptNo")
        batchNo := updField t.batchNo (responseData.lookup "vpc_BatchNo")
        gatewayResponse := some responseData
        processedAt := some now
        status := callbackStatus (responseData.lookup "vpc_TxnResponseCode") }

/-- `cancelPayment` (payment.service.ts lines 234–265): only a `PENDING`
transaction can be cancelled. -/
def cancelPayment (found : Option Transaction) (now : ℕ) :
    Except ApiError Transaction :=
  match found with
  | none => .error (.notFound "Payment not found")
  | some t =>
    if t.status ≠ .pending then
      .error (.badRequest "Payment cannot be cancelled")
    else .ok { t with status := .cancelled, processedAt := some now }

/-- The `try` body of `refundPayment` (payment.service.ts lines 281–351):
require the transaction, require `status === SUCCESS`, require the amount
to not exceed `amount - refundedAmount`, issue the gateway refund command
(`wire` is the axios outcome), validate the response, and — only when the
gateway answered with the string `'0'` — accumulate `refundedAmount` and
move to `REFUNDED`/`PARTIALLY_REFUNDED`; on a non-`'0'` answer the commit
happens with the record untouched. -/
def refundPaymentTry (d : Digests) (secret : String)
    (found : Option Transaction) (refundAmount : ℚ) (wire : AxiosOutcome) :
    Except ApiError Transaction :=
  match found with
  | none => .error (.notFound "Payment not found")
  | some t =>
    if t.status ≠ .success then
      .error (.badRequest "Payment not eligible for refund")
    else
      let availableAmount := t.amount - t.refundedAmount
      if refundAmount > availableAmount then
        .error (.badRequest "Refund amount exceeds available amount")
      else
        match makeApiCall wire with
        | .error e => .error e
        | .ok response =>
          match processQueryResponse d secret response with
          | .error e => .error e
          | .ok _ =>
            if response.lookup "vpc_TxnResponseCode" = some (.str "0") then
              let newRefundedAmount := t.refundedAmount + refundAmount
              let newStatus :=
                if newRefundedAmount ≥ t.amount then TransactionStatus.refunded
                else TransactionStatus.partially_refunded
              .ok { t with refundedAmount := newRefundedAmount, status := newStatus }
            else .ok t

/-- `refundPayment` (payment.service.ts lines 277–360): the whole `try`
body sits in a catch-all that rolls the store transaction back and rethrows
every failure as the generic `BadRequestException('Refund processing
failed')`. -/
def refundPayment (d : Digests) (secret : String)
    (found : Option Transaction) (refundAmount : ℚ) (wire : AxiosOutcome) :
    Except ApiError Transaction :=
  match refundPaymentTry d secret found refundAmount wire with
  | .ok t => .ok t
  | .error _ => .error (.badRequest "Refund processing failed")

/-! ## Reconciliation worker -/

/-- The response codes of `mapGatewayStatusToLocal`'s `FAILED` cases. -/
def failedCodes : List String := ["1", "2", "3", "4", "5", "6", "7"]

/-- `mapGatewayStatusToLocal` (payment-status-sync.processor.ts lines
137–152): a JS `switch` compares with strict equality, so only the string
`'0'` maps to `SUCCESS`, the strings `'1'`–`'7'` map to `FAILED`, and any
other value — including the *number* `0` that `parseResponse` produces from
a `vpc_TxnResponseCode=0` body — falls to `default` and yields `null`. -/
def mapGatewayStatusToLocal (responseCode : Option JsValue) :
    Option TransactionStatus :=
  match responseCode with
  | some (.str c) =>
    if c = "0" then some .success
    else if c ∈ failedCodes then some .failed
    else none
  | _ => none

/-- A column written by the worker's `transaction.update`: an absent
response field (`undefined`) is skipped by the ORM and keeps the old value. -/
def updJs (old : Option JsValue) (v : Option JsValue) : Option JsValue :=
  match v with
  | none => old
  | some w => some w

/-- Outcome of the worker's per-transaction body: counted as updated,
skipped, or recorded as a per-transaction error. -/
inductive SyncOutcome where
  | updated (t' : Transaction)
  | skipped
  | errored (e : ApiError)
deriving DecidableEq, Repr

/-- The per-transaction body of `handlePaymentStatusSync`
(payment-status-sync.processor.ts lines 54–111) applied to one selected
pending transaction: query the gateway through `queryPaymentByTxnRef`, map
the response code, and update exactly when a status was mapped and differs
from the current one. -/
def workerStep (d : Digests) (secret : String) (now : ℕ)
    (t : Transaction) (wire : AxiosOutcome) : SyncOutcome :=
  match queryPaymentByTxnRef d secret t.merchantTxnRef true wire with
  | .error e => .errored e
  | .ok gatewayResponse =>
    match mapGatewayStatusToLocal (gatewayResponse.lookup "vpc_TxnResponseCode") with
    | some gatewayStatus =>
      if gatewayStatus ≠ t.status then
        .updated { t with
          status := gatewayStatus
          responseCode := updJs t.responseCode (gatewayResponse.lookup "vpc_TxnResponseCode")
          responseMessage := updJs t.responseMessage (gatewayResponse.lookup "vpc_Message")
          transactionId := updJs t.transactionId (gatewayResponse.lookup "vpc_TransactionNo")
          authCode := updJs t.authCode (gatewayResponse.lookup "vpc_AuthorizeId")
          receiptNo := updJs t.receiptNo (gatewayResponse.lookup "vpc_ReceiptNo")
          processedAt := some now }
      else .skipped
    | none => .skipped

/-- The worker's selection criterion (processor lines 37–50): `PENDING`
transactions whose `createdAt` is older than five minutes (300000 ms). -/
def staleSelected (t : Transaction) (now : ℕ) : Prop :=
  t.status = .pending ∧ t.createdAt < now - 5 * 60 * 1000

/-! ## Operation sequences and reachable transaction states -/

/-- One state-machine operation on an existing transaction record, with the
environment each needs: the callback's response parameters, the wall clock,
the requested refund amount and the gateway's axios outcome. -/
inductive Op where
  | callback (responseData : Params) (now : ℕ)
  | cancel (now : ℕ)
  | refund (amount : ℚ) (wire : AxiosOutcome)

/-- Apply one operation to a transaction the store holds. An `.error`
result models the service throwing: the store transaction is rolled back,
so the record is unchanged. -/
def applyOp (d : Digests) (secret : String) (t : Transaction) :
    Op → Except ApiError Transaction
  | .callback responseData now => processPaymentResponse d secret responseData (some t) now
  | .cancel now => cancelPayment (some t) now
  | .refund amount wire => refundPayment d secret (some t) amount wire

/-- The transaction states the service can hold: `createPayment`
(payment.service.ts lines 98–158) persists the record with `status =
PENDING` and the model default `refundedAmount = 0`, for an amount the
`CreatePaymentDto` validation (`@Min(0.01)`) has accepted; every further
state is the committed result of one operation. -/
inductive Reachable (d : Digests) (secret : String) : Transaction → Prop where
  | created (t : Transaction) (hr : t.refundedAmount = 0)
      (hs : t.status = .pending) (ha : 0 < t.amount) :
      Reachable d secret t
  | step (t t' : Transaction) (op : Op) (ht : Reachable d secret t)
      (h : applyOp d secret t op = .ok t') : Reachable d secret t'

end Migs

namespace Mashreq

/-- `enum TransactionStatus` of payment-meshreq's `transaction.model.ts`. -/
inductive TransactionStatus where
  | pending
  | processing
  | success
  | failed
  | cancelled
  | refunded
deriving DecidableEq, Repr

/-- The Mashreq `switch (payload.status)` of `handleMashreqWebhook`
(webhook.controller.ts lines 68–87): the recognized gateway statuses map to
success/failed/cancelled/refunded; everything else falls to `default` and
becomes `PENDING`. -/
def mapWebhookStatus (status : String) : TransactionStatus :=
  if status = "payment.succeeded" ∨ status = "transfer.completed" ∨ status = "bill.paid" then
    .success
  else if status = "payment.failed" ∨ status = "transfer.failed" ∨ status = "bill.failed" then
    .failed
  else if status = "payment.cancelled" then .cancelled
  else if status = "payment.refunded" then .refunded
  else .pending

/-- The fields of payment-meshreq's `Transaction` model the webhook path
touches. -/
structure Transaction where
  mashreq_transaction_id : String
  status : TransactionStatus
deriving DecidableEq, Repr

/-- `PaymentService.updateTransactionStatus` (payment-meshreq): look the
transaction up by its Mashreq id; when absent, log and return `null`
without failing; when present, apply the given status. -/
def updateTransactionStatus (found : Option Transaction)
    (status : TransactionStatus) : Option Transaction :=
  match found with
  | none => none
  | some t => some { t with status := status }

/-- `handleMashreqWebhook` (webhook.controller.ts lines 33–108) after the
raw-body guard: reject on a bad signature, otherwise map `payload.status`
through the `switch` and apply the result to the referenced transaction
(`found` is the store lookup by `payload.transaction_id`). -/
def handleMashreqWebhook (sigOk : Bool) (payloadStatus : String)
    (found : Option Transaction) : Except String (Option Transaction) :=
  if ¬ sigOk then .error "Invalid signature"
  else .ok (updateTransactionStatus found (mapWebhookStatus payloadStatus))

/-- Byte count of one character under UTF-8, as `Buffer.from(s)` encodes
it. -/
def utf8Len (c : Char) : ℕ :=
  if c.val < 0x80 then 1
  else if c.val < 0x800 then 2
  else if c.val < 0x10000 then 3
  else 4

/-- `Buffer.byteLength` of a character list / string under UTF-8. -/
def byteLengthChars (l : List Char) : ℕ := (l.map utf8Len).sum

/-- `Buffer.byteLength(s)`. -/
def byteLength (s : String) : ℕ := byteLengthChars s.data

/-- One hex digit, lowercase, as `digest('hex')` prints it. -/
def hexChar (n : ℕ) : Char :=
  Char.ofNat (if n < 10 then 48 + n else 87 + n)

/-- The two hex digits of one byte. -/
def hexEncodeByte (b : ℕ) : List Char :=
  [hexChar (b / 16 % 16), hexChar (b % 16)]

/-- `digest('hex')`: the lowercase hex string of a byte list. -/
def hexEncode (bs : List ℕ) : String :=
  String.mk ((bs.map hexEncodeByte).flatten)

/-- `crypto.timingSafeEqual(Buffer.from(a), Buffer.from(b))`: throws a
`RangeError` when the UTF-8 byte lengths differ, otherwise compares the
buffers (UTF-8 encoding is injective, so byte equality is string
equality). -/
def timingSafeEqual (a b : String) : Except String Bool :=
  if byteLength a = byteLength b then .ok (decide (a = b))
  else .error "RangeError: Input buffers must have the same byte length"

/-- `MashreqService.verifyWebhookSignature` (lines 233–244 of the service
file): compare the supplied signature header against the hex-encoded
HMAC-SHA256 of the raw body via `timingSafeEqual`. The HMAC itself is the
external `crypto.createHmac('sha256', secret).update(payload).digest()`
raw digest, passed in as `hmacSha256 : String → String → List ℕ`. -/
def verifyWebhookSignature (hmacSha256 : String → String → List ℕ)
    (secret payload signature : String) : Except String Bool :=
  let expectedSignature := hexEncode (hmacSha256 secret payload)
  timingSafeEqual signature expectedSignature

end Mashreq

namespace Migs

/-! ## Proof-layer definitions and concrete sample data -/

/-- Strict key order; used to show the canonical sorted entry list is
uniquely determined when keys are pairwise distinct. -/
def keyLT (a b : String × String) : Prop := a.1.data < b.1.data

instance : DecidableRel keyLT := fun a b => inferInstanceAs (Decidable (a.1.data < b.1.data))

instance : IsAntisymm (String × String) keyLT :=
  ⟨fun _ _ h1 h2 => absurd (lt_trans h1 h2) (lt_irrefl _)⟩

instance (t : Transaction) (now : ℕ) : Decidable (staleSelected t now) := by
  unfold staleSelected; infer_instance

/-- A concrete digest backend for evaluating the model on sample data
(stands in for the external MD5/HMAC-SHA256 implementations, which the
theorems quantify over). -/
def sampleDigests : Digests := ⟨fun _ => "0A1B2C", fun _ _ => "3D4E5F"⟩

/-- A freshly created transaction record as `createPayment` persists it. -/
def sampleTxn : Transaction :=
  { merchantTxnRef := "MIGS_1_ABCD", amount := 100, refundedAmount := 0,
    status := .pending, transactionId := none, responseCode := none,
    responseMessage := none, authCode := none, receiptNo := none,
    batchNo := none, gatewayResponse := none, processedAt := none,
    createdAt := 0 }

/-- A gateway callback payload reporting response code `0`, before signing. -/
def sampleCallback : Params :=
  [("vpc_MerchTxnRef", some "MIGS_1_ABCD"), ("vpc_TxnResponseCode", some "0"),
   ("vpc_Message", some "Approved")]

/-- `sampleCallback` with a valid `vpc_SecureHash` attached. -/
def signedSampleCallback : Params :=
  setParam sampleCallback "vpc_SecureHash"
    (some (generateSecureHash sampleDigests sampleCallback "6D14" .SHA256))

/-- `sampleTxn` after a full refund: a terminal `refunded` record. -/
def refundedTxn : Transaction :=
  { sampleTxn with status := .refunded, refundedAmount := 100 }

/-- `sampleTxn` after a partial refund of 40.00 on the 100.00 amount. -/
def partiallyRefundedTxn : Transaction :=
  { sampleTxn with status := .partially_refunded, refundedAmount := 40 }

/-- A gateway reply approving the command: JSON body already decoded by
axios, carrying the response code as the string `"0"`. -/
def approvedWire : AxiosOutcome := .ok 200 (.obj [("vpc_TxnResponseCode", .str "0")])

/-- A gateway reply in the documented URL-encoded wire format, reporting
response code `0`. -/
def zeroCodeWire : AxiosOutcome :=
  .ok 200 (.str "vpc_TxnResponseCode=0&vpc_Message=Approved")

end Migs

namespace Migs

/-! ## Lemmas about the hash codec -/

lemma keepEntry_sig (v : Option String) : keepEntry ("vpc_SecureHash", v) = false := by
  simp [keepEntry]

lemma filter_map_overwrite_sig (l : Params) (v : Option String) :
    (l.map (fun p => if p.1 = "vpc_SecureHash" then ("vpc_SecureHash", v) else p)).filter
        keepEntry
      = l.filter keepEntry := by
  induction l with
  | nil => rfl
  | cons p l ih =>
    by_cases hp : p.1 = "vpc_SecureHash"
    · have hkeep : keepEntry p = false := by
        obtain ⟨k, w⟩ := p
        simp only at hp
        subst hp
        simp [keepEntry]
      have hmap : (if p.1 = "vpc_SecureHash" then (("vpc_SecureHash" : String), v) else p)
          = ("vpc_SecureHash", v) := if_pos hp
      rw [List.map_cons, hmap, List.filter_cons, List.filter_cons, keepEntry_sig, hkeep]
      simpa using ih
    · have hmap : (if p.1 = "vpc_SecureHash" then (("vpc_SecureHash" : String), v) else p)
          = p := if_neg hp
      rw [List.map_cons, hmap, List.filter_cons, List.filter_cons, ih]

lemma filter_setParam_sig (l : Params) (v : Option String) :
    (setParam l "vpc_SecureHash" v).filter keepEntry = l.filter keepEntry := by
  unfold setParam
  split
  · exact filter_map_overwrite_sig l v
  · rw [List.filter_append]
    simp [keepEntry_sig]

lemma sortedEntries_setParam_sig (l : Params) (v : Option String) :
    sortedEntries (setParam l "vpc_SecureHash" v) = sortedEntries l := by
  unfold sortedEntries filteredParams
  rw [filter_setParam_sig]

lemma generateSecureHash_setParam_sig (d : Digests) (l : Params) (secret : String)
    (ht : VpcSecureHashType) (v : Option String) :
    generateSecureHash d (setParam l "vpc_SecureHash" v) secret ht
      = generateSecureHash d l secret ht := by
  cases ht <;> simp [generateSecureHash, sortedEntries_setParam_sig]

lemma lookup_map_overwrite (l : Params) (k : String) (v : Option String)
    (h : l.any (fun p => p.1 = k) = true) :
    (l.map (fun p => if p.1 = k then (k, v) else p)).lookup k = some v := by
  induction l with
  | nil => simp at h
  | cons p l ih =>
    obtain ⟨pk, pv⟩ := p
    by_cases hp : pk = k
    · subst hp
      have hmap : (if (pk, pv).1 = pk then (pk, v) else (pk, pv)) = (pk, v) := if_pos rfl
      rw [List.map_cons, hmap]
      simp [List.lookup]
    · have hmap : (if (pk, pv).1 = k then (k, v) else (pk, pv)) = (pk, pv) := if_neg hp
      rw [List.map_cons, hmap]
      have hl : l.any (fun p => p.1 = k) = true := by
        simp only [List.any_cons, Bool.or_eq_true, decide_eq_true_eq] at h
        rcases h with h | h
        · exact absurd h hp
        · exact h
      have hbeq : (k == pk) = false := by
        simp [Ne.symm hp]
      simp [List.lookup, hbeq, ih hl]

lemma lookup_append_of_keys_ne (l : Params) (k : String) (v : Option String)
    (h : ∀ p ∈ l, p.1 ≠ k) :
    (l ++ [(k, v)]).lookup k = some v := by
  induction l with
  | nil => simp [List.lookup]
  | cons p l ih =>
    obtain ⟨pk, pv⟩ := p
    have hbeq : (k == pk) = false := by
      simp [Ne.symm (h (pk, pv) (List.mem_cons_self _ _))]
    rw [List.cons_append]
    simp only [List.lookup, hbeq]
    exact ih (fun q hq => h q (List.mem_cons_of_mem _ hq))

lemma lookup_setParam_self (l : Params) (k : String) (v : Option String) :
    (setParam l k v).lookup k = some v := by
  unfold setParam
  split
  case isTrue h => exact lookup_map_overwrite l k v h
  case isFalse h =>
    apply lookup_append_of_keys_ne
    intro p hp
    simp only [List.any_eq_true, decide_eq_true_eq, not_exists, not_and] at h
    exact h p hp

/-- C4: for every parameter map, secret and supported algorithm, attaching
the signature produced by `generateSecureHash` as the `vpc_SecureHash`
field and re-verifying with the same secret and algorithm returns `true`.
The hypothesis states the (externally guaranteed) fact that the digest
backend never returns the empty string — a real MD5/SHA-256 hex digest has
32/64 characters. -/
theorem signature_roundtrip_verifies (d : Digests) (parameters : Params)
    (secret : String) (hashType : VpcSecureHashType)
    (hne : generateSecureHash d parameters secret hashType ≠ "") :
    verifySecureHash d
      (setParam parameters "vpc_SecureHash"
        (some (generateSecureHash d parameters secret hashType)))
      secret hashType = true := by
  unfold verifySecureHash
  rw [lookup_setParam_self]
  simp [hne, generateSecureHash_setParam_sig]

/-- Witness for C4 at a concrete map, secret and algorithm. -/
theorem signature_roundtrip_verifies_witness :
    generateSecureHash sampleDigests sampleCallback "6D14" .SHA256 ≠ "" ∧
    verifySecureHash sampleDigests signedSampleCallback "6D14" .SHA256 = true :=
  ⟨by decide,
   signature_roundtrip_verifies sampleDigests sampleCallback "6D14" .SHA256 (by decide)⟩

lemma keepEntry_eq_false_of_dropped (p : String × Option String)
    (h : p.2 = none ∨ ∃ s, p.2 = some s ∧ jsTrim s = "") : keepEntry p = false := by
  unfold keepEntry
  rcases h with h | ⟨s, hs, ht⟩
  · rw [h]
    split <;> rfl
  · rw [hs]
    split
    · rfl
    · simp [ht]

lemma filteredParams_append_dropped (l extras : Params)
    (h : ∀ p ∈ extras, keepEntry p = false) :
    filteredParams (l ++ extras) = filteredParams l := by
  unfold filteredParams
  have hnil : extras.filter keepEntry = [] :=
    List.filter_eq_nil_iff.mpr (by intro a ha; simp [h a ha])
  rw [List.filter_append, hnil, List.append_nil]

lemma nodupKeys_filteredParams (l : Params) (h : (l.map Prod.fst).Nodup) :
    ((filteredParams l).map Prod.fst).Nodup := by
  unfold filteredParams
  rw [List.map_map]
  have hcomp : (Prod.fst ∘ fun p : String × Option String => (p.1, jsTrim (p.2.getD "")))
      = Prod.fst := rfl
  rw [hcomp]
  exact h.sublist ((List.filter_sublist l).map Prod.fst)

lemma pairwise_keyLT_of_sorted_nodupKeys (s : List (String × String))
    (hs : List.Sorted keyLE s) (hnd : (s.map Prod.fst).Nodup) :
    List.Pairwise keyLT s := by
  have hne : List.Pairwise (fun a b : String × String => a.1.data ≠ b.1.data) s := by
    rw [List.Nodup, List.pairwise_map] at hnd
    exact hnd.imp (fun h hd => h (String.ext hd))
  exact (List.Pairwise.and hs hne).imp (fun h => lt_of_le_of_ne h.1 h.2)

lemma sortedEntries_eq_of_perm (l₁ l₂ : Params) (hp : l₁.Perm l₂)
    (hnd : (l₂.map Prod.fst).Nodup) :
    sortedEntries l₁ = sortedEntries l₂ := by
  have hfp : (filteredParams l₁).Perm (filteredParams l₂) := by
    unfold filteredParams
    exact (hp.filter keepEntry).map _
  have hnd₂ := nodupKeys_filteredParams l₂ hnd
  have hnd₁ : ((filteredParams l₁).map Prod.fst).Nodup :=
    ((hfp.map Prod.fst).nodup_iff).mpr hnd₂
  have hnds₁ : ((sortedEntries l₁).map Prod.fst).Nodup :=
    (((List.perm_insertionSort keyLE (filteredParams l₁)).map Prod.fst).nodup_iff).mpr hnd₁
  have hnds₂ : ((sortedEntries l₂).map Prod.fst).Nodup :=
    (((List.perm_insertionSort keyLE (filteredParams l₂)).map Prod.fst).nodup_iff).mpr hnd₂
  have hps : (sortedEntries l₁).Perm (sortedEntries l₂) :=
    (List.perm_insertionSort keyLE _).trans
      (hfp.trans (List.perm_insertionSort keyLE _).symm)
  exact List.eq_of_perm_of_sorted hps
    (pairwise_keyLT_of_sorted_nodupKeys _ (List.sorted_insertionSort keyLE _) hnds₁)
    (pairwise_keyLT_of_sorted_nodupKeys _ (List.sorted_insertionSort keyLE _) hnds₂)

/-- C8: the computed signature is invariant under reordering of the input
map and under insertion of extra keys whose values are null or
empty-after-trim: for any map `l₂` that is a permutation of `l₁` together
with such extra entries (keys pairwise distinct, as in a JS object), both
algorithm variants produce the same hex string, for every digest backend. -/
theorem hash_invariant_reorder_nullpad (d : Digests) (secret : String)
    (hashType : VpcSecureHashType) (l₁ extras l₂ : Params)
    (hdrop : ∀ p ∈ extras, p.2 = none ∨ ∃ s, p.2 = some s ∧ jsTrim s = "")
    (hnd : ((l₁ ++ extras).map Prod.fst).Nodup)
    (hperm : l₂.Perm (l₁ ++ extras)) :
    generateSecureHash d l₂ secret hashType = generateSecureHash d l₁ secret hashType := by
  have h1 : sortedEntries l₂ = sortedEntries (l₁ ++ extras) :=
    sortedEntries_eq_of_perm l₂ (l₁ ++ extras) hperm hnd
  have h2 : sortedEntries (l₁ ++ extras) = sortedEntries l₁ := by
    unfold sortedEntries
    rw [filteredParams_append_dropped l₁ extras
      (fun p hp => keepEntry_eq_false_of_dropped p (hdrop p hp))]
  cases hashType <;> simp [generateSecureHash, h1, h2]

/-- Witness for C8: a shuffled copy of a two-entry map padded with a null
entry and a whitespace-only entry hashes identically, on both variants'
query strings (checked here for SHA256 with a concrete digest backend). -/
theorem hash_invariant_reorder_nullpad_witness :
    (∀ p ∈ ([("vpc_Extra", none), ("vpc_Pad", some "  ")] : Params),
        p.2 = none ∨ ∃ s, p.2 = some s ∧ jsTrim s = "") ∧
    ((([("vpc_Amount", some "10000"), ("vpc_Command", some "pay")] : Params)
        ++ [("vpc_Extra", none), ("vpc_Pad", some "  ")]).map Prod.fst).Nodup ∧
    ([("vpc_Pad", some "  "), ("vpc_Command", some "pay"), ("vpc_Extra", none),
      ("vpc_Amount", some "10000")] : Params).Perm
      (([("vpc_Amount", some "10000"), ("vpc_Command", some "pay")] : Params)
        ++ [("vpc_Extra", none), ("vpc_Pad", some "  ")]) ∧
    generateSecureHash sampleDigests
        [("vpc_Pad", some "  "), ("vpc_Command", some "pay"), ("vpc_Extra", none),
         ("vpc_Amount", some "10000")] "6D14" .SHA256
      = generateSecureHash sampleDigests
          [("vpc_Amount", some "10000"), ("vpc_Command", some "pay")] "6D14" .SHA256 :=
  ⟨by decide, by decide, by decide,
   hash_invariant_reorder_nullpad sampleDigests "6D14" .SHA256
     [("vpc_Amount", some "10000"), ("vpc_Command", some "pay")]
     [("vpc_Extra", none), ("vpc_Pad", some "  ")]
     [("vpc_Pad", some "  "), ("vpc_Command", some "pay"), ("vpc_Extra", none),
      ("vpc_Amount", some "10000")]
     (by decide) (by decide) (by decide)⟩

end Migs

namespace Migs

/-! ## State-machine theorems -/

/-- C1 (failing evaluation): `processPaymentResponse` never inspects the
current status. A validly signed callback reporting code `0` for a
transaction that is already `refunded` is accepted and moves the status
back to `success` — no `IllegalTransitionError` is raised, contradicting
the monotonic-lifecycle requirement. -/
theorem callback_moves_refunded_back_to_success :
    verifySecureHash sampleDigests signedSampleCallback "6D14" .SHA256 = true ∧
    refundedTxn.status = .refunded ∧
    (processPaymentResponse sampleDigests "6D14" signedSampleCallback
        (some refundedTxn) 999).map Transaction.status = .ok .success := by
  exact ⟨by decide, by decide, by decide⟩

/-- C2 (failing evaluation): `refundPayment` requires `status === SUCCESS`,
so a transaction in `partially_refunded` — with 60.00 of its 100.00 still
available — is rejected instead of being refunded to `refunded`/100.00. -/
theorem refund_rejected_from_partially_refunded :
    partiallyRefundedTxn.status = .partially_refunded ∧
    partiallyRefundedTxn.amount - partiallyRefundedTxn.refundedAmount = 60 ∧
    refundPayment sampleDigests "6D14" (some partiallyRefundedTxn) 60 approvedWire
      = .error (.badRequest "Refund processing failed") := by
  refine ⟨by decide, ?_, by decide⟩
  norm_num [partiallyRefundedTxn, sampleTxn]

lemma refund_excess_fails (d : Digests) (secret : String) (t : Transaction)
    (req : ℚ) (wire : AxiosOutcome) (h : t.amount - t.refundedAmount < req) :
    refundPayment d secret (some t) req wire
      = .error (.badRequest "Refund processing failed") := by
  by_cases hs : t.status = .success
  · simp [refundPayment, refundPaymentTry, hs, h]
  · simp [refundPayment, refundPaymentTry, hs]

lemma applyOp_preserves_refund_bound (d : Digests) (secret : String)
    (t : Transaction) (op : Op) (t' : Transaction)
    (h : applyOp d secret t op = .ok t') (hinv : t.refundedAmount ≤ t.amount) :
    t'.refundedAmount ≤ t'.amount := by
  cases op with
  | callback responseData now =>
    simp only [applyOp, processPaymentResponse] at h
    split at h
    · exact Except.noConfusion h
    · rw [Except.ok.injEq] at h
      subst h
      exact hinv
  | cancel now =>
    simp only [applyOp, cancelPayment] at h
    split at h
    · exact Except.noConfusion h
    · rw [Except.ok.injEq] at h
      subst h
      exact hinv
  | refund amount wire =>
    cases hr : refundPaymentTry d secret (some t) amount wire with
    | error e => simp [applyOp, refundPayment, hr] at h
    | ok u =>
      simp only [applyOp, refundPayment, hr, Except.ok.injEq] at h
      subst h
      simp only [refundPaymentTry] at hr
      split at hr
      · exact Except.noConfusion hr
      · rename_i hstat
        split at hr
        · exact Except.noConfusion hr
        · rename_i hle
          split at hr
          · exact Except.noConfusion hr
          · split at hr
            · exact Except.noConfusion hr
            · split at hr
              · rw [Except.ok.injEq] at hr
                subst hr
                show t.refundedAmount + amount ≤ t.amount
                have hav : amount ≤ t.amount - t.refundedAmount := not_lt.mp hle
                linarith
              · rw [Except.ok.injEq] at hr
                subst hr
                exact hinv

lemma reachable_refundedAmount_le (d : Digests) (secret : String)
    (t : Transaction) (h : Reachable d secret t) :
    t.refundedAmount ≤ t.amount := by
  induction h with
  | created t hr hs ha => rw [hr]; exact ha.le
  | step t t' op ht h ih => exact applyOp_preserves_refund_bound d secret t op t' h ih

/-- C3: on every reachable transaction, `refundedAmount` never exceeds
`amount`; and a refund request for more than `amount - refundedAmount`
always fails — with the `BadRequestException` (HTTP 400, the code's
`ValidationError` family) that the catch-all wrapper rethrows — leaving the
record unchanged (an `.error` result means the enclosing store transaction
was rolled back with no update applied). -/
theorem refund_never_exceeds_amount (d : Digests) (secret : String)
    (t : Transaction) (h : Reachable d secret t) :
    t.refundedAmount ≤ t.amount ∧
    ∀ req wire, t.amount - t.refundedAmount < req →
      refundPayment d secret (some t) req wire
        = .error (.badRequest "Refund processing failed") :=
  ⟨reachable_refundedAmount_le d secret t h,
   fun req wire hx => refund_excess_fails d secret t req wire hx⟩

/-- Witness for C3 at a freshly created transaction and an excessive
request of 150.00 against the available 100.00. -/
theorem refund_never_exceeds_amount_witness :
    sampleTxn.refundedAmount ≤ sampleTxn.amount ∧
    refundPayment sampleDigests "6D14" (some sampleTxn) 150 approvedWire
      = .error (.badRequest "Refund processing failed") := by
  have h := refund_never_exceeds_amount sampleDigests "6D14" sampleTxn
    (Reachable.created sampleTxn rfl rfl (by norm_num [sampleTxn]))
  exact ⟨h.1, h.2 150 approvedWire (by norm_num [sampleTxn])⟩

end Migs

namespace Migs

/-! ## Reconciliation-worker and gateway-client theorems -/

/-- C5 counterexample: the two code tables are not equal. For response code
`"8"` — or any other code the worker does not recognize — the callback path
maps to `FAILED` while `mapGatewayStatusToLocal` maps to `null` (skip). -/
theorem worker_mapping_differs_from_callback_at_8 :
    ¬ (mapGatewayStatusToLocal (some (.str "8"))
        = some (callbackStatus (some (some "8")))) := by decide

/-- C5 amended: the worker's mapping agrees with the callback's exactly on
the codes the worker recognizes (`"0"` → success, `"1"`–`"7"` → failed);
for every other code the worker applies no status while `processCallback`
would set `failed`. -/
theorem worker_mapping_agrees_on_recognized (c : String)
    (h : c = "0" ∨ c ∈ failedCodes) :
    mapGatewayStatusToLocal (some (.str c)) = some (callbackStatus (some (some c))) := by
  rcases h with rfl | h
  · decide
  · simp only [failedCodes] at h
    fin_cases h <;> decide

/-- Witness for the amended C5 at the recognized code `"5"`. -/
theorem worker_mapping_agrees_on_recognized_witness :
    ("5" = "0" ∨ "5" ∈ failedCodes) ∧
    mapGatewayStatusToLocal (some (.str "5")) = some (callbackStatus (some (some "5"))) :=
  ⟨by decide, worker_mapping_agrees_on_recognized "5" (by decide)⟩

/-- C6 (failing evaluation): a pending transaction created more than five
minutes ago is selected, the gateway's URL-encoded reply carries
`vpc_TxnResponseCode=0`, yet one worker pass leaves it `pending` and counts
it as skipped: `parseResponse` coerces `"0"` to the number `0`, on which the
worker's strict `switch` matches no case. -/
theorem worker_skips_stale_pending_zero_code :
    staleSelected sampleTxn 600000 ∧
    mapGatewayStatusToLocal
        ((parseResponse "vpc_TxnResponseCode=0&vpc_Message=Approved").lookup
          "vpc_TxnResponseCode") = none ∧
    workerStep sampleDigests "6D14" 600000 sampleTxn zeroCodeWire = .skipped := by
  exact ⟨by decide, by decide, by decide⟩

/-- C7 counterexample: a 404 reply is not returned as data —
`makeApiCall` raises `ServiceUnavailableException` for it. -/
theorem makeApiCall_404_throws :
    makeApiCall (.ok 404 (.str "vpc_TxnResponseCode=0"))
      = .error (.serviceUnavailable "Gateway returned error status") := by decide

/-- C7 amended: among the statuses axios resolves (`validateStatus`:
`status < 500`), `makeApiCall` returns the body as data exactly for
statuses below 400; the whole 4xx range — not only 5xx — is treated as a
service failure (4xx by the explicit `status >= 400` throw, 5xx and
transport failures by the axios rejection path). -/
theorem makeApiCall_ok_iff_status_lt_400 (status : ℕ) (data : JsBody)
    (h : status < 500) :
    (makeApiCall (.ok status data)).isOk = true ↔ status < 400 := by
  by_cases h4 : 400 ≤ status
  · have hn : ¬ status < 400 := not_lt.mpr h4
    simp [makeApiCall, h4, hn, Except.isOk, Except.toBool]
  · have h4' : status < 400 := not_le.mp h4
    cases data with
    | str s =>
      simp only [makeApiCall, ge_iff_le, if_neg h4]
      split_ifs <;> simp [Except.isOk, Except.toBool, h4']
    | obj fields =>
      simp [makeApiCall, h4, h4', Except.isOk, Except.toBool]

/-- Witness for the amended C7 at status 250. -/
theorem makeApiCall_ok_iff_status_lt_400_witness :
    (250 < 500) ∧ ((makeApiCall (.ok 250 (.str "OK"))).isOk = true ↔ 250 < 400) :=
  ⟨by decide, makeApiCall_ok_iff_status_lt_400 250 (.str "OK") (by decide)⟩

end Migs

namespace Mashreq

/-! ## Mashreq webhook theorems -/

/-- C9: a webhook whose `status` is none of the recognized values falls to
the `default` case of the `switch`, maps to `PENDING`, and that status is
applied to the referenced transaction — the record is not left untouched. -/
theorem webhook_unrecognized_status_maps_to_pending (status : String)
    (t : Transaction)
    (h : status ∉ ["payment.succeeded", "transfer.completed", "bill.paid",
        "payment.failed", "transfer.failed", "bill.failed",
        "payment.cancelled", "payment.refunded"]) :
    mapWebhookStatus status = .pending ∧
    handleMashreqWebhook true status (some t)
      = .ok (some { t with status := .pending }) := by
  simp only [List.mem_cons, List.not_mem_nil, or_false, not_or] at h
  obtain ⟨h1, h2, h3, h4, h5, h6, h7, h8⟩ := h
  have hm : mapWebhookStatus status = .pending := by
    simp [mapWebhookStatus, h1, h2, h3, h4, h5, h6, h7, h8]
  exact ⟨hm, by simp [handleMashreqWebhook, updateTransactionStatus, hm]⟩

/-- Witness for C9 at the unrecognized status `payment.expired`. -/
theorem webhook_unrecognized_status_maps_to_pending_witness :
    ("payment.expired" ∉ ["payment.succeeded", "transfer.completed", "bill.paid",
        "payment.failed", "transfer.failed", "bill.failed",
        "payment.cancelled", "payment.refunded"]) ∧
    (mapWebhookStatus "payment.expired" = .pending ∧
      handleMashreqWebhook true "payment.expired" (some ⟨"mashreq-1", .success⟩)
        = .ok (some ⟨"mashreq-1", .pending⟩)) :=
  ⟨by decide,
   webhook_unrecognized_status_maps_to_pending "payment.expired"
     ⟨"mashreq-1", .success⟩ (by decide)⟩

lemma utf8Len_hexChar_lt16 : ∀ n < 16, utf8Len (hexChar n) = 1 := by decide

lemma byteLengthChars_append (a b : List Char) :
    byteLengthChars (a ++ b) = byteLengthChars a + byteLengthChars b := by
  simp [byteLengthChars, List.map_append, List.sum_append]

lemma byteLengthChars_hexEncodeByte (b : ℕ) :
    byteLengthChars (hexEncodeByte b) = 2 := by
  have h1 : utf8Len (hexChar (b / 16 % 16)) = 1 :=
    utf8Len_hexChar_lt16 _ (Nat.mod_lt _ (by norm_num))
  have h2 : utf8Len (hexChar (b % 16)) = 1 :=
    utf8Len_hexChar_lt16 _ (Nat.mod_lt _ (by norm_num))
  simp [byteLengthChars, hexEncodeByte, h1, h2]

lemma byteLength_hexEncode (bs : List ℕ) :
    byteLength (hexEncode bs) = 2 * bs.length := by
  show byteLengthChars ((bs.map hexEncodeByte).flatten) = 2 * bs.length
  induction bs with
  | nil => rfl
  | cons b bs ih =>
    rw [List.map_cons, List.flatten_cons, byteLengthChars_append,
      byteLengthChars_hexEncodeByte, ih, List.length_cons]
    ring

lemma hexEncode_strlen (bs : List ℕ) : (hexEncode bs).length = 2 * bs.length := by
  show ((bs.map hexEncodeByte).flatten).length = 2 * bs.length
  induction bs with
  | nil => rfl
  | cons b bs ih =>
    rw [List.map_cons, List.flatten_cons, List.length_append, ih, List.length_cons]
    simp [hexEncodeByte]
    ring

/-- C10: `verifyWebhookSignature` resolves to a boolean exactly when the
supplied signature header occupies the same number of bytes (64) as the
64-character hex digest; any other length makes `crypto.timingSafeEqual`
throw a `RangeError` instead of returning `false`. The hypothesis states
the external fact that an HMAC-SHA256 raw digest has 32 bytes. -/
theorem webhook_signature_ok_iff_len64
    (hmacSha256 : String → String → List ℕ) (secret payload signature : String)
    (h32 : (hmacSha256 secret payload).length = 32) :
    (hexEncode (hmacSha256 secret payload)).length = 64 ∧
    ((verifyWebhookSignature hmacSha256 secret payload signature).isOk = true
      ↔ byteLength signature = 64) := by
  constructor
  · rw [hexEncode_strlen, h32]
  · have hlen : byteLength (hexEncode (hmacSha256 secret payload)) = 64 := by
      rw [byteLength_hexEncode, h32]
    simp only [verifyWebhookSignature, timingSafeEqual, hlen]
    split_ifs with hcond
    · simp [Except.isOk, Except.toBool, hcond]
    · simp [Except.isOk, Except.toBool, hcond]

/-- Witness for C10 with a concrete 32-byte digest backend. -/
theorem webhook_signature_ok_iff_len64_witness :
    (((fun _ _ => List.replicate 32 0) : String → String → List ℕ) "whsec" "rawbody").length
        = 32 ∧
    ((hexEncode (List.replicate 32 0)).length = 64 ∧
      ((verifyWebhookSignature (fun _ _ => List.replicate 32 0) "whsec" "rawbody"
          "sig").isOk = true ↔ byteLength "sig" = 64)) :=
  ⟨by simp,
   webhook_signature_ok_iff_len64 (fun _ _ => List.replicate 32 0)
     "whsec" "rawbody" "sig" (by simp)⟩

end Mashreq
